import Mathlib

/-!
Verification of the Mellow Signs upload backend (src/server.js) against its
natural-language specification.  The HTTP handler for POST /api/upload and its
helper functions (generateOrderId, isValidEmail, sanitizeFileName,
findOrCreateCustomer, uploadToImageKit, createOrder) are shallowly embedded as
pure Lean functions.  Ambient effects (the clock, Math.random, and the outcomes
of the ImageKit / Airtable calls) are supplied through an explicit environment,
and every outbound provider call made by the handler is recorded in a
transcript so that call-count properties can be stated.
-/

namespace MellowSigns

/-- Strings are modelled as lists of characters. -/
abbrev Str := List Char

/-- Characters the sanitizer keeps unchanged: the JS class [a-zA-Z0-9.-]. -/
def allowedFileChar (c : Char) : Bool :=
  c.isAlpha || c.isDigit || c == '.' || c == '-'

/-- First pass of sanitizeFileName: replace(/[^a-zA-Z0-9.-]/g, the underscore). -/
def replaceDisallowed (c : Char) : Char :=
  if allowedFileChar c then c else '_'

/-- Second pass of sanitizeFileName: collapse each run of underscores to a
single one (the JS replace with the one-or-more-underscores pattern).  The
boolean flag records whether the previously emitted character was an
underscore. -/
def collapseAux : Bool → Str → Str
  | _, [] => []
  | prevU, c :: rest =>
    if c = '_' then
      if prevU then collapseAux true rest else '_' :: collapseAux true rest
    else
      c :: collapseAux false rest

/-- sanitizeFileName from src/server.js: replace every character outside
[a-zA-Z0-9.-] with an underscore, collapse runs of underscores, and truncate
to 100 characters with substring(0, 100). -/
def sanitizeFileName (s : Str) : Str :=
  (collapseAux false (s.map replaceDisallowed)).take 100

/-- generateOrderId from src/server.js: the template literal
MS-(Date.now())-(Math.random().toString(36).substr(2, 9).toUpperCase()).
The millisecond clock value and the nine-character base-36 fragment are the
two ambient values, supplied by the caller. -/
def generateOrderId (nowMs : Nat) (randSuffix : Str) : Str :=
  "MS-".data ++ Nat.toDigits 10 nowMs ++ "-".data ++ randSuffix

/-- The identifier format asserted by the spec: a decimal epoch-millisecond
timestamp (13 or more digits) immediately followed by exactly 4 decimal
digits, and nothing else — i.e. at least 17 characters, all digits. -/
def specIdFormat (s : Str) : Bool :=
  decide (17 ≤ s.length) && s.all (fun c => c.isDigit)

/-- Whitespace as matched by the JS \s class (approximated by
Char.isWhitespace in the embedding). -/
def isSpaceChar (c : Char) : Bool := c.isWhitespace

/-- The part after the at sign in the email pattern: one or more
non-space-non-at characters, a dot, then one or more non-space-non-at
characters.  Over a non-space-non-at string this holds exactly when some dot
sits strictly inside the string. -/
def emailTailOk (b : Str) : Bool :=
  !b.isEmpty && b.all (fun c => !isSpaceChar c && !(c == '@'))
    && (b.dropLast.drop 1).contains '.'

/-- isValidEmail from src/server.js: the regex test
of local-part, at sign, domain with an interior dot, where local part and
domain consist of non-space-non-at characters. -/
def isValidEmail (s : Str) : Bool :=
  let a := s.takeWhile (fun c => !(c == '@'))
  match s.dropWhile (fun c => !(c == '@')) with
  | [] => false
  | _ :: b =>
    !a.isEmpty && a.all (fun c => !isSpaceChar c) && emailTailOk b

/-- JS truthiness of an optional string field: undefined and the empty string
are falsy. -/
def jsFalsyOpt : Option Str → Bool
  | none => true
  | some s => s.isEmpty

/-- The JS expression (x or-else d) on an optional string value: undefined and
the empty string fall back to the default. -/
def jsOrOpt (o : Option Str) (d : Str) : Str :=
  match o with
  | none => d
  | some s => if s.isEmpty then d else s

/-- The JS expression (s or-else d) on a string value. -/
def jsOrStr (s d : Str) : Str := if s.isEmpty then d else s

/-- A thrown JS Error: the handler only ever serializes the message; the stack
is carried so that its absence from responses can be stated. -/
structure JsErr where
  message : Str
  stack : Str
deriving DecidableEq

/-- An Airtable customer record as read back from the Clientes table
(record id plus the two fields the 200 response echoes). -/
structure Customer where
  id : Str
  nome : Str
  email : Str
deriving DecidableEq

/-- One file of the multipart request, as delivered by multer. -/
structure ReqFile where
  originalname : Str
  mimetype : Str
  size : Nat
  buffer : List Nat
deriving DecidableEq

/-- The req.body fields the handler destructures. -/
structure Body where
  nome : Option Str
  email : Option Str
  telefone : Option Str
  tipoProduto : Option Str
  comentarios : Option Str
deriving DecidableEq

/-- One HTTP request to POST /api/upload.  The Authorization header is part of
the request; the handler in src/server.js never reads it. -/
structure Request where
  authorization : Option Str
  body : Body
  files : List ReqFile
deriving DecidableEq

/-- Whether the two external clients were successfully constructed at process
start (the imagekit and base globals being non-null). -/
structure Config where
  imagekitConfigured : Bool
  airtableConfigured : Bool
deriving DecidableEq

/-- The ImageKit upload response fields the code reads. -/
structure IkResp where
  fileId : Str
  name : Str
  url : Str
  thumbnailUrl : Option Str
deriving DecidableEq

/-- The ambient world of one request: the ISO clock string, the stream of
(Date.now, random-suffix) pairs consumed by generateOrderId calls, and the
outcome of each outbound provider call. -/
structure Env where
  nowIso : Str
  gens : List (Nat × Str)
  selectClientes : Except JsErr (List Customer)
  createCliente : Except JsErr Customer
  ikUpload : Nat → Except JsErr IkResp
  createPedido : Except JsErr Str

/-- Pop the next (Date.now, random-suffix) pair off the generator stream. -/
def popGen : List (Nat × Str) → (Nat × Str) × List (Nat × Str)
  | [] => ((0, []), [])
  | g :: gs => (g, gs)

/-- The order id produced by the first generateOrderId call of a request. -/
def firstOrderId (gens : List (Nat × Str)) : Str :=
  generateOrderId (popGen gens).1.1 (popGen gens).1.2

/-- The value uploadToImageKit returns on success. -/
structure UploadedFile where
  fileId : Str
  fileName : Str
  url : Str
  thumbnailUrl : Option Str
  size : Nat
  originalName : Str
deriving DecidableEq

/-- One outbound imagekit.upload call as issued by the code (the base64
transport encoding of the buffer is elided; fileData carries the bytes). -/
structure IkUploadReq where
  fileData : List Nat
  fileName : Str
  folder : Str
  useUniqueFileName : Bool
  tags : List Str
deriving DecidableEq

/-- One Clientes row as sent to Airtable by findOrCreateCustomer. -/
structure ClienteRow where
  nome : Str
  email : Str
  telefone : Str
  data : Str
deriving DecidableEq

/-- One entry of the Ficheiros Metadata JSON built by createOrder (the JSON
serialization itself is elided; the field values are kept). -/
structure FileMeta where
  filename : Str
  url : Str
  thumbnailUrl : Str
  fileId : Str
  size : Nat
  originalName : Str
deriving DecidableEq

/-- One Pedidos row as sent to Airtable by createOrder. -/
structure PedidoRow where
  cliente : Str
  orderId : Str
  tipoProduto : Str
  status : Str
  dataUpload : Str
  comentarios : Str
  ficheirosMetadata : List FileMeta
  numeroFicheiros : Nat
deriving DecidableEq

/-- Transcript of every outbound provider call one request made. -/
structure Transcript where
  clientesSelects : List Str
  clientesCreates : List ClienteRow
  imagekitUploads : List IkUploadReq
  pedidosCreates : List PedidoRow
deriving DecidableEq

/-- The transcript of a request that made no provider call. -/
def emptyTranscript : Transcript := ⟨[], [], [], []⟩

/-- One entry of the files array of the 200 response. -/
structure FileOut where
  fileName : Str
  originalName : Str
  url : Str
  thumbnailUrl : Option Str
  size : Nat
deriving DecidableEq

/-- The JSON body and status the handler sends, flattened. -/
structure HttpResponse where
  status : Nat
  success : Bool
  error : Option Str
  code : Option Str
  orderId : Option Str
  recordId : Option Str
  customerId : Option Str
  customerNome : Option Str
  customerEmail : Option Str
  files : List FileOut
  filesCount : Option Nat
deriving DecidableEq

/-- What one call of the handler produces: the HTTP response plus the
transcript of provider calls. -/
structure HandlerResult where
  resp : HttpResponse
  tr : Transcript
deriving DecidableEq

/-- The customerData object the handler passes to findOrCreateCustomer. -/
structure CustomerData where
  nome : Str
  email : Str
  telefone : Option Str
deriving DecidableEq

/-- The Clientes calls findOrCreateCustomer made. -/
structure CustCalls where
  selects : List Str
  creates : List ClienteRow
deriving DecidableEq

/-- The orderData object the handler passes to createOrder. -/
structure OrderData where
  tipoProduto : Option Str
  comentarios : Option Str
deriving DecidableEq

/-- The value createOrder returns on success. -/
structure OrderOut where
  orderId : Str
  recordId : Str
  filesCount : Nat
deriving DecidableEq

/-- Whether an Except value is a success. -/
def exIsOk : Except ε α → Bool
  | .ok _ => true
  | .error _ => false

/-- findOrCreateCustomer from src/server.js: guard on the base global, select
the Clientes table filtered by email, return the first hit, otherwise create a
new Cliente row; select and create failures are rethrown with the
cliente-processing prefix.  The second component records the Airtable calls
made. -/
def findOrCreateCustomer (airtableOk : Bool) (env : Env) (cd : CustomerData) :
    Except Str Customer × CustCalls :=
  if !airtableOk then (.error "Airtable não está configurado".data, ⟨[], []⟩)
  else
    match env.selectClientes with
    | .error e =>
      (.error ("Falha ao processar dados do cliente: ".data ++ e.message), ⟨[cd.email], []⟩)
    | .ok (c :: _) => (.ok c, ⟨[cd.email], []⟩)
    | .ok [] =>
      let row : ClienteRow := ⟨cd.nome, cd.email, jsOrOpt cd.telefone [], env.nowIso⟩
      match env.createCliente with
      | .error e =>
        (.error ("Falha ao processar dados do cliente: ".data ++ e.message), ⟨[cd.email], [row]⟩)
      | .ok c => (.ok c, ⟨[cd.email], [row]⟩)

/-- uploadToImageKit from src/server.js: guard on the imagekit global, compute
the sanitized file name and the storage key, issue one imagekit.upload call
with the constant folder /mellow-signs/orders, and wrap provider failures with
the upload-failed prefix.  The second component records the issued call. -/
def uploadToImageKit (imagekitOk : Bool) (outcome : Except JsErr IkResp)
    (file : ReqFile) (orderId : Str) (index : Nat) :
    Except Str UploadedFile × List IkUploadReq :=
  if !imagekitOk then (.error "ImageKit não está configurado".data, [])
  else
    let sanitizedName := sanitizeFileName file.originalname
    let fname := orderId ++ "_".data ++ Nat.toDigits 10 index ++ "_".data ++ sanitizedName
    let ikreq : IkUploadReq :=
      ⟨file.buffer, fname, "/mellow-signs/orders".data, true, [orderId, "upload".data]⟩
    match outcome with
    | .error e => (.error ("Upload falhou: ".data ++ e.message), [ikreq])
    | .ok r =>
      (.ok ⟨r.fileId, r.name, r.url, r.thumbnailUrl, file.size, file.originalname⟩, [ikreq])

/-- The Ficheiros Metadata entry createOrder builds for one uploaded file. -/
def fileMetaOf (f : UploadedFile) : FileMeta :=
  ⟨f.fileName, f.url, jsOrOpt f.thumbnailUrl [], f.fileId, f.size, f.originalName⟩

/-- createOrder from src/server.js: guard on the base global, generate a fresh
order id with its own generateOrderId call, build the Pedidos row (customer
link, order id, product type, status Novo, upload date, comments, files
metadata, file count), and create it; provider failures are rethrown with the
pedido-creation prefix.  The second component records the Pedidos create
call. -/
def createOrder (airtableOk : Bool) (env : Env) (gens : List (Nat × Str))
    (customerId : Str) (od : OrderData) (ufs : List UploadedFile) :
    Except Str OrderOut × List PedidoRow :=
  if !airtableOk then (.error "Airtable não está configurado".data, [])
  else
    let orderId := generateOrderId (popGen gens).1.1 (popGen gens).1.2
    let row : PedidoRow :=
      ⟨customerId, orderId, jsOrOpt od.tipoProduto "Não especificado".data,
       "Novo".data, env.nowIso, jsOrOpt od.comentarios [],
       ufs.map fileMetaOf, ufs.length⟩
    match env.createPedido with
    | .error e => (.error ("Falha ao criar pedido no sistema: ".data ++ e.message), [row])
    | .ok recId => (.ok ⟨orderId, recId, ufs.length⟩, [row])

/-- Promise.all over a list of settled outcomes: the collected successes, or
the first rejection in list order (a determinization of the race; the code
awaits Promise.all, which rejects as soon as any upload rejects). -/
def promiseAll : List (Except Str α) → Except Str (List α)
  | [] => .ok []
  | .error e :: _ => .error e
  | .ok a :: rest =>
    match promiseAll rest with
    | .error e => .error e
    | .ok as => .ok (a :: as)

/-- JS Array.prototype.map with the element index, as used by the fan-out
req.files.map((file, index) => uploadToImageKit(file, orderId, index)). -/
def mapWithIndex (f : Nat → α → β) : Nat → List α → List β
  | _, [] => []
  | i, a :: as => f i a :: mapWithIndex f (i + 1) as

/-- The customerData value built at the call site in the handler. -/
def customerDataOf (b : Body) : CustomerData :=
  ⟨b.nome.getD [], b.email.getD [], b.telefone⟩

/-- The fan-out of uploadToImageKit calls the handler issues, one per file,
all sharing the order id of the handler's generateOrderId call. -/
def uploadPairsOf (cfg : Config) (env : Env) (req : Request) :
    List (Except Str UploadedFile × List IkUploadReq) :=
  mapWithIndex
    (fun i f => uploadToImageKit cfg.imagekitConfigured (env.ikUpload i) f
      (firstOrderId env.gens) i)
    0 req.files

/-- The 503 response sent when a backend service is not configured. -/
def resp503 : HttpResponse :=
  { status := 503, success := false
    error := some "Serviços de backend não estão configurados. Por favor, contacte o suporte.".data
    code := some "SERVICES_NOT_CONFIGURED".data
    orderId := none, recordId := none, customerId := none
    customerNome := none, customerEmail := none, files := [], filesCount := none }

/-- A 400 validation response. -/
def resp400 (msg code : Str) : HttpResponse :=
  { status := 400, success := false, error := some msg, code := some code
    orderId := none, recordId := none, customerId := none
    customerNome := none, customerEmail := none, files := [], filesCount := none }

/-- The 500 response of the catch block: the error message (with the generic
fallback when empty), code INTERNAL_SERVER_ERROR, and the handler's orderId
variable with the N/A fallback. -/
def resp500 (msg : Str) (orderIdVar : Option Str) : HttpResponse :=
  { status := 500, success := false
    error := some (jsOrStr msg "Erro interno no servidor. Tente novamente.".data)
    code := some "INTERNAL_SERVER_ERROR".data
    orderId := some (jsOrOpt orderIdVar "N/A".data)
    recordId := none, customerId := none
    customerNome := none, customerEmail := none, files := [], filesCount := none }

/-- One entry of the files array of the 200 response. -/
def fileOutOf (f : UploadedFile) : FileOut :=
  ⟨f.fileName, f.originalName, f.url, f.thumbnailUrl, f.size⟩

/-- The 200 success response. -/
def resp200 (order : OrderOut) (customer : Customer) (ufs : List UploadedFile) :
    HttpResponse :=
  { status := 200, success := true, error := none, code := none
    orderId := some order.orderId, recordId := some order.recordId
    customerId := some customer.id
    customerNome := some customer.nome, customerEmail := some customer.email
    files := ufs.map fileOutOf, filesCount := some ufs.length }

/-- The tail of the pipeline after a successful Promise.all join: the single
createOrder call (which makes its own generateOrderId call on the remaining
generator stream) and the shaping of the 200 or 500 response. -/
def afterUploads (cfg : Config) (env : Env) (req : Request) (customer : Customer)
    (cc : CustCalls) (ufs : List UploadedFile) : HandlerResult :=
  match createOrder cfg.airtableConfigured env (popGen env.gens).2 customer.id
      ⟨req.body.tipoProduto, req.body.comentarios⟩ ufs with
  | (.error msg, rows) =>
    ⟨resp500 msg (some (firstOrderId env.gens)),
     ⟨cc.selects, cc.creates, ((uploadPairsOf cfg env req).map Prod.snd).flatten, rows⟩⟩
  | (.ok order, rows) =>
    ⟨resp200 order customer ufs,
     ⟨cc.selects, cc.creates, ((uploadPairsOf cfg env req).map Prod.snd).flatten, rows⟩⟩

/-- The pipeline after a successful customer step: generate the order id, fan
out one uploadToImageKit call per file, join them with Promise.all; a failed
join is caught as a 500 that carries the handler's generated order id, and the
Pedidos create is then never reached. -/
def afterCustomer (cfg : Config) (env : Env) (req : Request) (customer : Customer)
    (cc : CustCalls) : HandlerResult :=
  match promiseAll ((uploadPairsOf cfg env req).map Prod.fst) with
  | .error msg =>
    ⟨resp500 msg (some (firstOrderId env.gens)),
     ⟨cc.selects, cc.creates, ((uploadPairsOf cfg env req).map Prod.snd).flatten, []⟩⟩
  | .ok ufs => afterUploads cfg env req customer cc ufs

/-- The pipeline after validation: find-or-create the customer, then the
upload fan-out and the order creation; a customer-step failure is caught as a
500 whose orderId variable is still null. -/
def runPipeline (cfg : Config) (env : Env) (req : Request) : HandlerResult :=
  match findOrCreateCustomer cfg.airtableConfigured env (customerDataOf req.body) with
  | (.error msg, cc) =>
    ⟨resp500 msg none, ⟨cc.selects, cc.creates, [], []⟩⟩
  | (.ok customer, cc) => afterCustomer cfg env req customer cc

/-- The POST /api/upload handler from src/server.js: the
services-configured guard, then the three body validations, then the pipeline.
The request's Authorization header is never consulted (the source contains no
authentication check on this route). -/
def postUpload (cfg : Config) (env : Env) (req : Request) : HandlerResult :=
  if !cfg.imagekitConfigured || !cfg.airtableConfigured then
    ⟨resp503, emptyTranscript⟩
  else if jsFalsyOpt req.body.nome || jsFalsyOpt req.body.email then
    ⟨resp400 "Nome e email são obrigatórios".data "MISSING_REQUIRED_FIELDS".data,
     emptyTranscript⟩
  else if !isValidEmail (req.body.email.getD []) then
    ⟨resp400 "Email inválido".data "INVALID_EMAIL".data, emptyTranscript⟩
  else if req.files.isEmpty then
    ⟨resp400 "Pelo menos um ficheiro é obrigatório".data "NO_FILES".data, emptyTranscript⟩
  else
    runPipeline cfg env req

/-- Underscore-run freedom: no two adjacent underscores. -/
def noUnderscoreRun : Str → Bool
  | a :: b :: rest => if a = '_' ∧ b = '_' then false else noUnderscoreRun (b :: rest)
  | _ => true

/-- Whether the first character, if any, is not an underscore. -/
def headNotUnderscore : Str → Bool
  | [] => true
  | c :: _ => if c = '_' then false else true

/-- A configuration with both services configured. -/
def cfgOk : Config := ⟨true, true⟩

/-- A configuration with the object-store client unconfigured. -/
def cfgNoIk : Config := ⟨false, true⟩

/-- An example existing Clientes record. -/
def exCustomer : Customer := ⟨"recCust1".data, "Ana Silva".data, "ana@example.com".data⟩

/-- An example uploaded file. -/
def exFile : ReqFile := ⟨"file.pdf".data, "application/pdf".data, 2000000, [37, 80, 68, 70]⟩

/-- An example environment in which every provider call succeeds.  The
generator stream holds two distinct (Date.now, random-suffix) pairs, one for
each generateOrderId call the code makes. -/
def exEnv : Env :=
  { nowIso := "2024-10-19T12:00:00.000Z".data
    gens := [(1000, "AAAAAAAAA".data), (1001, "BBBBBBBBB".data)]
    selectClientes := .ok [exCustomer]
    createCliente := .ok exCustomer
    ikUpload := fun _ => .ok ⟨"ikFile1".data, "stored-name".data, "https://ik.example/f".data, none⟩
    createPedido := .ok "recPedido1".data }

/-- exEnv with every ImageKit upload failing. -/
def exEnvUploadFail : Env :=
  { exEnv with ikUpload := fun _ => Except.error ⟨"socket hang up".data, "Error: socket hang up at TLSSocket".data⟩ }

/-- exEnv with the Pedidos create failing with one upstream detail string. -/
def exEnvPersistFail : Env :=
  { exEnv with createPedido := Except.error ⟨"AUTHENTICATION_REQUIRED detail abc".data, "Error: at AirtableBase".data⟩ }

/-- exEnv with the Pedidos create failing with a different upstream detail. -/
def exEnvPersistFail2 : Env :=
  { exEnv with createPedido := Except.error ⟨"other upstream detail".data, "Error: at AirtableBase".data⟩ }

/-- An example valid body. -/
def exBody : Body :=
  ⟨some "Ana Silva".data, some "ana@example.com".data, none, none, none⟩

/-- A valid request carrying no Authorization header. -/
def exReq : Request := ⟨none, exBody, [exFile]⟩

/-- A valid request carrying a bearer token that matches no configured value. -/
def exReqWrongToken : Request := ⟨some "Bearer WRONG".data, exBody, [exFile]⟩

/-- A request whose body is missing the required nome field. -/
def exReqNoNome : Request := ⟨none, { exBody with nome := none }, [exFile]⟩

/-! ### Properties of the file-name sanitizer -/

theorem rd_allowed (c : Char) (h : allowedFileChar c = true) : replaceDisallowed c = c := by
  simp [replaceDisallowed, h]

theorem rd_not (c : Char) (h : allowedFileChar c = false) : replaceDisallowed c = '_' := by
  simp [replaceDisallowed, h]

theorem noRun_cons (c : Char) (l : Str) (h1 : noUnderscoreRun l = true)
    (h2 : c = '_' → headNotUnderscore l = true) : noUnderscoreRun (c :: l) = true := by
  cases l with
  | nil => rfl
  | cons d t =>
    have hcond : ¬(c = '_' ∧ d = '_') := by
      rintro ⟨rfl, rfl⟩
      have := h2 rfl
      simp [headNotUnderscore] at this
    simp only [noUnderscoreRun, if_neg hcond]
    exact h1

theorem noRun_tail (c : Char) (l : Str) (h : noUnderscoreRun (c :: l) = true) :
    noUnderscoreRun l = true := by
  cases l with
  | nil => rfl
  | cons d t =>
    by_cases hcond : c = '_' ∧ d = '_'
    · simp only [noUnderscoreRun, if_pos hcond] at h
      exact absurd h (by simp)
    · simpa only [noUnderscoreRun, if_neg hcond] using h

theorem noRun_head (l : Str) (h : noUnderscoreRun ('_' :: l) = true) :
    headNotUnderscore l = true := by
  cases l with
  | nil => rfl
  | cons d t =>
    by_cases hd : d = '_'
    · subst hd
      simp only [noUnderscoreRun, if_pos (And.intro rfl rfl)] at h
      exact absurd h (by simp)
    · simp [headNotUnderscore, hd]

theorem headNot_take (l : Str) (n : Nat) (h : headNotUnderscore l = true) :
    headNotUnderscore (l.take n) = true := by
  cases l with
  | nil => simp [List.take, headNotUnderscore]
  | cons c t =>
    cases n with
    | zero => rfl
    | succ m => simpa [List.take, headNotUnderscore] using h

theorem noRun_take (l : Str) : ∀ n : Nat, noUnderscoreRun l = true →
    noUnderscoreRun (l.take n) = true := by
  induction l with
  | nil => intro n _; simp [List.take, noUnderscoreRun]
  | cons c rest ih =>
    intro n h
    cases n with
    | zero => rfl
    | succ m =>
      simp only [List.take]
      refine noRun_cons c (rest.take m) (ih m (noRun_tail c rest h)) ?_
      intro hc
      subst hc
      exact headNot_take rest m (noRun_head rest h)

theorem collapseAux_head (l : Str) : headNotUnderscore (collapseAux true l) = true := by
  induction l with
  | nil => rfl
  | cons c rest ih =>
    by_cases hc : c = '_'
    · subst hc
      simpa [collapseAux] using ih
    · simp [collapseAux, hc, headNotUnderscore]

theorem collapseAux_noRun (l : Str) : ∀ b : Bool, noUnderscoreRun (collapseAux b l) = true := by
  induction l with
  | nil => intro b; rfl
  | cons c rest ih =>
    intro b
    by_cases hc : c = '_'
    · subst hc
      cases b with
      | true => simpa [collapseAux] using ih true
      | false =>
        simp only [collapseAux, if_pos rfl, if_neg (by simp : ¬(false = true))]
        exact noRun_cons '_' (collapseAux true rest) (ih true)
          (fun _ => collapseAux_head rest)
    · simp only [collapseAux, if_neg hc]
      exact noRun_cons c (collapseAux false rest) (ih false) (fun h => absurd h hc)

theorem collapseAux_fixed (l : Str) : ∀ b : Bool, noUnderscoreRun l = true →
    (b = true → headNotUnderscore l = true) → collapseAux b l = l := by
  induction l with
  | nil => intro b _ _; rfl
  | cons c rest ih =>
    intro b h1 h2
    by_cases hc : c = '_'
    · subst hc
      cases b with
      | true =>
        have := h2 rfl
        simp [headNotUnderscore] at this
      | false =>
        simp only [collapseAux, if_pos rfl, if_neg (by simp : ¬(false = true))]
        have : collapseAux true rest = rest :=
          ih true (noRun_tail '_' rest h1) (fun _ => noRun_head rest h1)
        rw [this]
        simp
    · simp only [collapseAux, if_neg hc]
      have : collapseAux false rest = rest :=
        ih false (noRun_tail c rest h1) (fun h => absurd h (by simp))
      rw [this]

theorem collapseAux_subset (l : Str) : ∀ (b : Bool) (x : Char),
    x ∈ collapseAux b l → x ∈ l := by
  induction l with
  | nil => intro b x hx; simp [collapseAux] at hx
  | cons c rest ih =>
    intro b x hx
    by_cases hc : c = '_'
    · subst hc
      cases b with
      | true =>
        simp only [collapseAux, if_pos rfl, if_pos rfl] at hx
        exact List.mem_cons_of_mem _ (ih true x hx)
      | false =>
        simp only [collapseAux, if_pos rfl, if_neg (by simp : ¬(false = true))] at hx
        rcases List.mem_cons.mp hx with rfl | hx
        · exact List.mem_cons_self _ _
        · exact List.mem_cons_of_mem _ (ih true x hx)
    · simp only [collapseAux, if_neg hc] at hx
      rcases List.mem_cons.mp hx with rfl | hx
      · exact List.mem_cons_self _ _
      · exact List.mem_cons_of_mem _ (ih false x hx)

theorem map_rd_fixed (l : Str) (h : ∀ c ∈ l, replaceDisallowed c = c) :
    l.map replaceDisallowed = l := by
  induction l with
  | nil => rfl
  | cons c rest ih =>
    simp only [List.map_cons]
    rw [h c (List.mem_cons_self _ _), ih (fun d hd => h d (List.mem_cons_of_mem _ hd))]

theorem sanitize_chars (x : Str) :
    ∀ c ∈ sanitizeFileName x, allowedFileChar c = true ∨ c = '_' := by
  intro c hc
  have h1 : c ∈ collapseAux false (x.map replaceDisallowed) :=
    List.take_subset _ _ hc
  have h2 : c ∈ x.map replaceDisallowed := collapseAux_subset _ false c h1
  rcases List.mem_map.mp h2 with ⟨a, _, rfl⟩
  by_cases ha : allowedFileChar a = true
  · left; rwa [rd_allowed a ha]
  · right; rw [rd_not a (by simpa using ha)]

theorem sanitize_len (x : Str) : (sanitizeFileName x).length ≤ 100 := by
  unfold sanitizeFileName
  rw [List.length_take]
  exact min_le_left _ _

theorem sanitize_noRun (x : Str) : noUnderscoreRun (sanitizeFileName x) = true :=
  noRun_take _ 100 (collapseAux_noRun _ false)

/-! ### Properties of the fan-out join and the pipeline stages -/

theorem promiseAll_ok_mem {α : Type} {l : List (Except Str α)} {as : List α}
    (h : promiseAll l = .ok as) : ∀ x ∈ l, ∃ a, x = .ok a := by
  induction l generalizing as with
  | nil => intro x hx; cases hx
  | cons y ys ih =>
    intro x hx
    cases y with
    | error e => simp [promiseAll] at h
    | ok a =>
      cases hmat : promiseAll ys with
      | error e =>
        rw [promiseAll, hmat] at h
        cases h
      | ok bs =>
        rcases List.mem_cons.mp hx with rfl | hx
        · exact ⟨a, rfl⟩
        · exact ih hmat x hx

theorem promiseAll_error_of_mem {α : Type} {l : List (Except Str α)}
    (h : ∃ x ∈ l, ∃ e, x = .error e) : ∃ e, promiseAll l = .error e := by
  induction l with
  | nil =>
    rcases h with ⟨x, hx, _⟩
    cases hx
  | cons y ys ih =>
    rcases h with ⟨x, hx, e, hxe⟩
    cases y with
    | error e2 => exact ⟨e2, rfl⟩
    | ok a =>
      rcases List.mem_cons.mp hx with rfl | hx
      · cases hxe
      · rcases ih ⟨x, hx, e, hxe⟩ with ⟨e3, he3⟩
        exact ⟨e3, by rw [promiseAll, he3]⟩

theorem promiseAll_error_form {α : Type} {l : List (Except Str α)} {P : Str → Prop}
    (hall : ∀ x ∈ l, ∀ e, x = .error e → P e) :
    ∀ e, promiseAll l = .error e → P e := by
  induction l with
  | nil => intro e h; cases h
  | cons y ys ih =>
    intro e h
    cases y with
    | error e2 =>
      cases h
      exact hall _ (List.mem_cons_self _ _) _ rfl
    | ok a =>
      cases hmat : promiseAll ys with
      | error e3 =>
        rw [promiseAll, hmat] at h
        cases h
        exact ih (fun x hx => hall x (List.mem_cons_of_mem _ hx)) _ hmat
      | ok bs =>
        rw [promiseAll, hmat] at h
        cases h

theorem mem_mapWithIndex {α β : Type} (f : Nat → α → β) :
    ∀ (l : List α) (s i : Nat) (h : i < l.length),
      f (s + i) (l.get ⟨i, h⟩) ∈ mapWithIndex f s l := by
  intro l
  induction l with
  | nil => intro s i h; exact absurd h (Nat.not_lt_zero i)
  | cons a as ih =>
    intro s i h
    cases i with
    | zero =>
      rw [Nat.add_zero]
      exact List.mem_cons_self _ _
    | succ j =>
      have hj : j < as.length := Nat.lt_of_succ_lt_succ h
      have heq : s + (j + 1) = (s + 1) + j := by omega
      rw [heq]
      exact List.mem_cons_of_mem _ (ih (s + 1) j hj)

theorem of_mem_mapWithIndex {α β : Type} (f : Nat → α → β) :
    ∀ (l : List α) (s : Nat) (x : β), x ∈ mapWithIndex f s l →
      ∃ i a, a ∈ l ∧ x = f i a := by
  intro l
  induction l with
  | nil => intro s x hx; cases hx
  | cons c rest ih =>
    intro s x hx
    simp only [mapWithIndex] at hx
    rcases List.mem_cons.mp hx with rfl | hx
    · exact ⟨s, c, List.mem_cons_self _ _, rfl⟩
    · rcases ih (s + 1) x hx with ⟨i, a, ha, rfl⟩
      exact ⟨i, a, List.mem_cons_of_mem _ ha, rfl⟩

theorem jsOrStr_eq_self (m d : Str) (h : m.isEmpty = false) : jsOrStr m d = m := by
  simp [jsOrStr, h]

theorem isEmpty_append_left (a b : Str) (h : a.isEmpty = false) :
    (a ++ b).isEmpty = false := by
  cases a with
  | nil => simp [List.isEmpty] at h
  | cons c t => rfl

theorem generateOrderId_ne_empty (n : Nat) (r : Str) :
    (generateOrderId n r).isEmpty = false := rfl

theorem firstOrderId_ne_empty (gens : List (Nat × Str)) :
    (firstOrderId gens).isEmpty = false := rfl

theorem uploadToImageKit_error_form (outcome : Except JsErr IkResp) (file : ReqFile)
    (orderId : Str) (index : Nat) (e : Str)
    (h : (uploadToImageKit true outcome file orderId index).1 = .error e) :
    ∃ rest, e = "Upload falhou: ".data ++ rest := by
  cases outcome with
  | error e0 =>
    refine ⟨e0.message, ?_⟩
    have hv : (uploadToImageKit true (.error e0) file orderId index).1
        = .error ("Upload falhou: ".data ++ e0.message) := rfl
    rw [hv] at h
    injection h with h1
    exact h1.symm
  | ok r =>
    have hv : (uploadToImageKit true (.ok r) file orderId index).1
        = .ok ⟨r.fileId, r.name, r.url, r.thumbnailUrl, file.size, file.originalname⟩ := rfl
    rw [hv] at h
    cases h

theorem uploadPairs_error_form (cfg : Config) (env : Env) (req : Request)
    (hik : cfg.imagekitConfigured = true) :
    ∀ x ∈ (uploadPairsOf cfg env req).map Prod.fst, ∀ e, x = .error e →
      ∃ rest, e = "Upload falhou: ".data ++ rest := by
  intro x hx e hxe
  rcases List.mem_map.mp hx with ⟨p, hp, rfl⟩
  rcases of_mem_mapWithIndex _ req.files 0 p hp with ⟨i, a, _, rfl⟩
  rw [hik] at hxe
  exact uploadToImageKit_error_form (env.ikUpload i) a (firstOrderId env.gens) i e hxe

theorem findOrCreateCustomer_error_form (env : Env) (cd : CustomerData) (m : Str)
    (cc : CustCalls) (h : findOrCreateCustomer true env cd = (.error m, cc)) :
    ∃ rest, m = "Falha ao processar dados do cliente: ".data ++ rest := by
  cases hsel : env.selectClientes with
  | error e =>
    refine ⟨e.message, ?_⟩
    have hv : findOrCreateCustomer true env cd
        = (.error ("Falha ao processar dados do cliente: ".data ++ e.message),
           ⟨[cd.email], []⟩) := by
      simp [findOrCreateCustomer, hsel]
    rw [hv] at h
    injection h with h1 h2
    injection h1 with h3
    exact h3.symm
  | ok customers =>
    cases customers with
    | cons c cs =>
      have hv : findOrCreateCustomer true env cd = (.ok c, ⟨[cd.email], []⟩) := by
        simp [findOrCreateCustomer, hsel]
      rw [hv] at h
      injection h with h1 h2
      cases h1
    | nil =>
      cases hcre : env.createCliente with
      | error e =>
        refine ⟨e.message, ?_⟩
        have hv : findOrCreateCustomer true env cd
            = (.error ("Falha ao processar dados do cliente: ".data ++ e.message),
               ⟨[cd.email], [⟨cd.nome, cd.email, jsOrOpt cd.telefone [], env.nowIso⟩]⟩) := by
          simp [findOrCreateCustomer, hsel, hcre]
        rw [hv] at h
        injection h with h1 h2
        injection h1 with h3
        exact h3.symm
      | ok c =>
        have hv : findOrCreateCustomer true env cd
            = (.ok c, ⟨[cd.email],
               [⟨cd.nome, cd.email, jsOrOpt cd.telefone [], env.nowIso⟩]⟩) := by
          simp [findOrCreateCustomer, hsel, hcre]
        rw [hv] at h
        injection h with h1 h2
        cases h1

theorem createOrder_persistError (env : Env) (gens : List (Nat × Str)) (cid : Str)
    (od : OrderData) (ufs : List UploadedFile) (e : JsErr)
    (hcp : env.createPedido = .error e) :
    (createOrder true env gens cid od ufs).1
      = .error ("Falha ao criar pedido no sistema: ".data ++ e.message) := by
  simp [createOrder, hcp]

theorem runPipeline_custError (cfg : Config) (env : Env) (req : Request) (msg : Str)
    (cc : CustCalls)
    (hfc : findOrCreateCustomer cfg.airtableConfigured env (customerDataOf req.body)
      = (.error msg, cc)) :
    runPipeline cfg env req = ⟨resp500 msg none, ⟨cc.selects, cc.creates, [], []⟩⟩ := by
  unfold runPipeline
  rw [hfc]

theorem runPipeline_uploadError (cfg : Config) (env : Env) (req : Request)
    (customer : Customer) (cc : CustCalls) (msg : Str)
    (hfc : findOrCreateCustomer cfg.airtableConfigured env (customerDataOf req.body)
      = (.ok customer, cc))
    (hpa : promiseAll ((uploadPairsOf cfg env req).map Prod.fst) = .error msg) :
    runPipeline cfg env req =
      ⟨resp500 msg (some (firstOrderId env.gens)),
       ⟨cc.selects, cc.creates, ((uploadPairsOf cfg env req).map Prod.snd).flatten, []⟩⟩ := by
  unfold runPipeline
  rw [hfc]
  show afterCustomer cfg env req customer cc = _
  unfold afterCustomer
  rw [hpa]

theorem runPipeline_persistError (cfg : Config) (env : Env) (req : Request)
    (customer : Customer) (cc : CustCalls) (ufs : List UploadedFile) (msg : Str)
    (rows : List PedidoRow)
    (hfc : findOrCreateCustomer cfg.airtableConfigured env (customerDataOf req.body)
      = (.ok customer, cc))
    (hpa : promiseAll ((uploadPairsOf cfg env req).map Prod.fst) = .ok ufs)
    (hco : createOrder cfg.airtableConfigured env (popGen env.gens).2 customer.id
        ⟨req.body.tipoProduto, req.body.comentarios⟩ ufs = (.error msg, rows)) :
    runPipeline cfg env req =
      ⟨resp500 msg (some (firstOrderId env.gens)),
       ⟨cc.selects, cc.creates, ((uploadPairsOf cfg env req).map Prod.snd).flatten, rows⟩⟩ := by
  unfold runPipeline
  rw [hfc]
  show afterCustomer cfg env req customer cc = _
  unfold afterCustomer
  rw [hpa]
  show afterUploads cfg env req customer cc ufs = _
  unfold afterUploads
  rw [hco]

theorem postUpload_valid (cfg : Config) (env : Env) (req : Request)
    (hik : cfg.imagekitConfigured = true) (hat : cfg.airtableConfigured = true)
    (hv1 : (jsFalsyOpt req.body.nome || jsFalsyOpt req.body.email) = false)
    (hv2 : isValidEmail (req.body.email.getD []) = true)
    (hv3 : req.files.isEmpty = false) :
    postUpload cfg env req = runPipeline cfg env req := by
  simp [postUpload, hik, hat, hv1, hv2, hv3]

theorem jsOrOpt_of_ne (s d : Str) (h : s.isEmpty = false) : jsOrOpt (some s) d = s := by
  simp [jsOrOpt, h]

/-! ### The claims -/

/-- C1: the claim says every generated order id is a decimal
epoch-millisecond timestamp immediately followed by exactly four decimal
digits and nothing else.  The generator in src/server.js instead produces
MS-(timestamp)-(nine base-36 characters): at the concrete clock value
1729353600000 with random fragment K3J9XQ2ZL it returns
MS-1729353600000-K3J9XQ2ZL, which fails the digits-only format. -/
theorem C1_id_not_spec_format :
    generateOrderId 1729353600000 "K3J9XQ2ZL".data = "MS-1729353600000-K3J9XQ2ZL".data
    ∧ specIdFormat (generateOrderId 1729353600000 "K3J9XQ2ZL".data) = false := by
  constructor
  · rfl
  · decide

/-- C2: the claim says the order id is generated once and shared by the 200
payload, the order record, and every storage key.  On a fully successful
run with generator stream [(1000, AAAAAAAAA), (1001, BBBBBBBBB)] the handler
embeds MS-1000-AAAAAAAAA in the single storage key, while createOrder makes a
second generateOrderId call and both the Pedidos row and the 200 payload carry
MS-1001-BBBBBBBBB — a different string. -/
theorem C2_order_id_generated_twice :
    (postUpload cfgOk exEnv exReq).resp.status = 200
    ∧ (postUpload cfgOk exEnv exReq).resp.orderId = some "MS-1001-BBBBBBBBB".data
    ∧ (postUpload cfgOk exEnv exReq).tr.imagekitUploads.map IkUploadReq.fileName
        = ["MS-1000-AAAAAAAAA_0_file.pdf".data]
    ∧ (postUpload cfgOk exEnv exReq).tr.pedidosCreates.map PedidoRow.orderId
        = ["MS-1001-BBBBBBBBB".data]
    ∧ (postUpload cfgOk exEnv exReq).resp.orderId ≠ some "MS-1000-AAAAAAAAA".data := by
  refine ⟨rfl, rfl, rfl, rfl, ?_⟩
  decide

/-- C3: if at least one of the fan-out uploads fails, the request answers 500
and the Pedidos create (the order-record creation) is never invoked —
Promise.all rejects, so the handler's catch block responds before createOrder
is reached, regardless of how the sibling uploads fared. -/
theorem C3_upload_failure_fail_fast (cfg : Config) (env : Env) (req : Request)
    (hik : cfg.imagekitConfigured = true) (hat : cfg.airtableConfigured = true)
    (hv1 : (jsFalsyOpt req.body.nome || jsFalsyOpt req.body.email) = false)
    (hv2 : isValidEmail (req.body.email.getD []) = true)
    (hv3 : req.files.isEmpty = false)
    (hcust : ∃ c cc, findOrCreateCustomer true env (customerDataOf req.body) = (.ok c, cc))
    (hfail : ∃ i e, i < req.files.length ∧ env.ikUpload i = .error e) :
    (postUpload cfg env req).resp.status = 500
    ∧ (postUpload cfg env req).tr.pedidosCreates = [] := by
  rw [postUpload_valid cfg env req hik hat hv1 hv2 hv3]
  rcases hcust with ⟨customer, cc, hfc⟩
  have hfc2 : findOrCreateCustomer cfg.airtableConfigured env (customerDataOf req.body)
      = (.ok customer, cc) := by rw [hat]; exact hfc
  rcases hfail with ⟨i, e, hi, hie⟩
  have hmem := mem_mapWithIndex
    (fun i f => uploadToImageKit cfg.imagekitConfigured (env.ikUpload i) f
      (firstOrderId env.gens) i)
    req.files 0 i hi
  have hp1 : (uploadToImageKit cfg.imagekitConfigured (env.ikUpload (0 + i))
      (req.files.get ⟨i, hi⟩) (firstOrderId env.gens) (0 + i)).1
      = .error ("Upload falhou: ".data ++ e.message) := by
    rw [Nat.zero_add, hik, hie]
    rfl
  have hmemf : (uploadToImageKit cfg.imagekitConfigured (env.ikUpload (0 + i))
      (req.files.get ⟨i, hi⟩) (firstOrderId env.gens) (0 + i)).1
      ∈ (uploadPairsOf cfg env req).map Prod.fst := List.mem_map_of_mem Prod.fst hmem
  rcases promiseAll_error_of_mem ⟨_, hmemf, _, hp1⟩ with ⟨msg, hpa⟩
  rw [runPipeline_uploadError cfg env req customer cc msg hfc2 hpa]
  exact ⟨rfl, rfl⟩

/-- Witness for C3 at a concrete input: one file, its upload failing. -/
theorem C3_upload_failure_fail_fast_witness :
    (postUpload cfgOk exEnvUploadFail exReq).resp.status = 500
    ∧ (postUpload cfgOk exEnvUploadFail exReq).tr.pedidosCreates = [] :=
  C3_upload_failure_fail_fast cfgOk exEnvUploadFail exReq rfl rfl (by decide) (by decide)
    (by decide)
    ⟨exCustomer, ⟨["ana@example.com".data], []⟩, rfl⟩
    ⟨0, ⟨"socket hang up".data, "Error: socket hang up at TLSSocket".data⟩, by decide, rfl⟩

/-- C4: the claim says a missing bearer token yields 401 and a wrong one 403.
The handler in src/server.js performs no authorization check at all: the same
otherwise-valid request answers 200 both with no Authorization header and
with a non-matching bearer token. -/
theorem C4_no_auth_enforcement :
    exReq.authorization = none
    ∧ exReqWrongToken.authorization = some "Bearer WRONG".data
    ∧ (postUpload cfgOk exEnv exReq).resp.status = 200
    ∧ (postUpload cfgOk exEnv exReqWrongToken).resp.status = 200 := by
  exact ⟨rfl, rfl, rfl, rfl⟩

/-- C5: the claim says persisting an order is a single write with customer
fields folded into the order row and no preceding lookup-or-create.  On a
fully successful run the code first issues a Clientes select filtered by the
customer email (findOrCreateCustomer), and the single Pedidos row links the
customer record instead of folding the fields. -/
theorem C5_customer_lookup_precedes_insert :
    (postUpload cfgOk exEnv exReq).resp.status = 200
    ∧ (postUpload cfgOk exEnv exReq).tr.clientesSelects = ["ana@example.com".data]
    ∧ (postUpload cfgOk exEnv exReq).tr.pedidosCreates.map PedidoRow.cliente
        = ["recCust1".data] := by
  exact ⟨rfl, rfl, rfl⟩

/-- C6: the claim says each stored file lands under
/(namespace)/orders/(YYYY-MM-DD)/(orderId)/ with the order id repeated in the
file name.  The code uploads every file to the constant folder
/mellow-signs/orders — no date segment and no order-id segment — and only the
file-name part (orderId)_(index)_(sanitizedName) matches the claim. -/
theorem C6_flat_storage_folder :
    (postUpload cfgOk exEnv exReq).tr.imagekitUploads.map IkUploadReq.folder
        = ["/mellow-signs/orders".data]
    ∧ (postUpload cfgOk exEnv exReq).tr.imagekitUploads.map IkUploadReq.fileName
        = ["MS-1000-AAAAAAAAA_0_file.pdf".data]
    ∧ "/mellow-signs/orders".data
        ≠ "/mellow-signs/orders/2024-10-19/MS-1000-AAAAAAAAA/".data := by
  refine ⟨rfl, rfl, ?_⟩
  decide

/-- C7: sanitizeFileName is idempotent, its output is at most 100 characters
long, and every output character is in the class [A-Za-z0-9._-] (the kept
class [a-zA-Z0-9.-] plus the underscore substitute). -/
theorem C7_sanitize_idempotent_and_charset (x : Str) :
    sanitizeFileName (sanitizeFileName x) = sanitizeFileName x
    ∧ (sanitizeFileName x).length ≤ 100
    ∧ ∀ c ∈ sanitizeFileName x, allowedFileChar c = true ∨ c = '_' := by
  refine ⟨?_, sanitize_len x, sanitize_chars x⟩
  have hfix : (sanitizeFileName x).map replaceDisallowed = sanitizeFileName x := by
    apply map_rd_fixed
    intro c hc
    rcases sanitize_chars x c hc with h | rfl
    · exact rd_allowed c h
    · decide
  have hcol : collapseAux false (sanitizeFileName x) = sanitizeFileName x :=
    collapseAux_fixed _ false (sanitize_noRun x) (fun h => absurd h (by simp))
  calc sanitizeFileName (sanitizeFileName x)
      = (collapseAux false ((sanitizeFileName x).map replaceDisallowed)).take 100 := rfl
    _ = (collapseAux false (sanitizeFileName x)).take 100 := by rw [hfix]
    _ = (sanitizeFileName x).take 100 := by rw [hcol]
    _ = sanitizeFileName x := List.take_of_length_le (sanitize_len x)

/-- C8: with both services configured, a request whose nome or email is
absent or empty is answered 400 with code MISSING_REQUIRED_FIELDS and no
provider call of any kind is made. -/
theorem C8_missing_fields_no_side_effects (cfg : Config) (env : Env) (req : Request)
    (hik : cfg.imagekitConfigured = true) (hat : cfg.airtableConfigured = true)
    (hmiss : (jsFalsyOpt req.body.nome || jsFalsyOpt req.body.email) = true) :
    (postUpload cfg env req).resp.status = 400
    ∧ (postUpload cfg env req).resp.code = some "MISSING_REQUIRED_FIELDS".data
    ∧ (postUpload cfg env req).tr = emptyTranscript := by
  have h : postUpload cfg env req
      = ⟨resp400 "Nome e email são obrigatórios".data "MISSING_REQUIRED_FIELDS".data,
         emptyTranscript⟩ := by
    simp [postUpload, hik, hat, hmiss]
  rw [h]
  exact ⟨rfl, rfl, rfl⟩

/-- Witness for C8 at a concrete input: a request with no nome field. -/
theorem C8_missing_fields_no_side_effects_witness :
    (postUpload cfgOk exEnv exReqNoNome).resp.status = 400
    ∧ (postUpload cfgOk exEnv exReqNoNome).resp.code = some "MISSING_REQUIRED_FIELDS".data
    ∧ (postUpload cfgOk exEnv exReqNoNome).tr = emptyTranscript :=
  C8_missing_fields_no_side_effects cfgOk exEnv exReqNoNome rfl rfl (by decide)

/-- C9 counterexample to the message being generic: two runs that differ only
in the upstream error detail produce different client-facing messages, each
embedding the upstream detail after the stage prefix — the message is derived
from the thrown error, not a fixed generic string. -/
theorem C9_message_not_generic :
    (postUpload cfgOk exEnvPersistFail exReq).resp.error
        = some "Falha ao criar pedido no sistema: AUTHENTICATION_REQUIRED detail abc".data
    ∧ (postUpload cfgOk exEnvPersistFail2 exReq).resp.error
        = some "Falha ao criar pedido no sistema: other upstream detail".data
    ∧ (postUpload cfgOk exEnvPersistFail exReq).resp.error
        ≠ (postUpload cfgOk exEnvPersistFail2 exReq).resp.error := by
  refine ⟨rfl, rfl, ?_⟩
  decide

/-- C9 (amended): every post-validation upstream failure is answered 500 with
success false, code INTERNAL_SERVER_ERROR, an error message that is a
pipeline-stage prefix followed by the thrown error's message (the stack is
never written to the response), and an orderId field carrying the generated
id when one was generated, else the sentinel N/A. -/
theorem C9_error_response_shape (cfg : Config) (env : Env) (req : Request)
    (hik : cfg.imagekitConfigured = true) (hat : cfg.airtableConfigured = true)
    (hv1 : (jsFalsyOpt req.body.nome || jsFalsyOpt req.body.email) = false)
    (hv2 : isValidEmail (req.body.email.getD []) = true)
    (hv3 : req.files.isEmpty = false)
    (hfail : exIsOk (findOrCreateCustomer true env (customerDataOf req.body)).1 = false
      ∨ (∃ i e, i < req.files.length ∧ env.ikUpload i = .error e)
      ∨ exIsOk env.createPedido = false) :
    (postUpload cfg env req).resp.status = 500
    ∧ (postUpload cfg env req).resp.success = false
    ∧ (postUpload cfg env req).resp.code = some "INTERNAL_SERVER_ERROR".data
    ∧ (postUpload cfg env req).resp.orderId =
        some (if exIsOk (findOrCreateCustomer true env (customerDataOf req.body)).1
              then firstOrderId env.gens else "N/A".data)
    ∧ ∃ m rest, (postUpload cfg env req).resp.error = some m
        ∧ (m = "Falha ao processar dados do cliente: ".data ++ rest
           ∨ m = "Upload falhou: ".data ++ rest
           ∨ m = "Falha ao criar pedido no sistema: ".data ++ rest) := by
  rw [postUpload_valid cfg env req hik hat hv1 hv2 hv3]
  rcases hfc : findOrCreateCustomer true env (customerDataOf req.body) with ⟨res, cc⟩
  have hfc2 : findOrCreateCustomer cfg.airtableConfigured env (customerDataOf req.body)
      = (res, cc) := by rw [hat]; exact hfc
  cases res with
  | error m =>
    rw [runPipeline_custError cfg env req m cc hfc2]
    rcases findOrCreateCustomer_error_form env (customerDataOf req.body) m cc hfc
      with ⟨rest, hrest⟩
    have hne : m.isEmpty = false := by
      rw [hrest]; exact isEmpty_append_left _ _ (by decide)
    refine ⟨rfl, rfl, rfl, ?_, m, rest, ?_, Or.inl hrest⟩
    · simp [resp500, jsOrOpt, exIsOk]
    · show some (jsOrStr m "Erro interno no servidor. Tente novamente.".data) = some m
      rw [jsOrStr_eq_self m _ hne]
  | ok customer =>
    cases hpa : promiseAll ((uploadPairsOf cfg env req).map Prod.fst) with
    | error m =>
      rw [runPipeline_uploadError cfg env req customer cc m hfc2 hpa]
      rcases promiseAll_error_form (uploadPairs_error_form cfg env req hik) m hpa
        with ⟨rest, hrest⟩
      have hne : m.isEmpty = false := by
        rw [hrest]; exact isEmpty_append_left _ _ (by decide)
      refine ⟨rfl, rfl, rfl, ?_, m, rest, ?_, Or.inr (Or.inl hrest)⟩
      · show some (jsOrOpt (some (firstOrderId env.gens)) "N/A".data) = _
        rw [jsOrOpt_of_ne _ _ (firstOrderId_ne_empty env.gens)]
        simp [exIsOk]
      · show some (jsOrStr m "Erro interno no servidor. Tente novamente.".data) = some m
        rw [jsOrStr_eq_self m _ hne]
    | ok ufs =>
      rcases hfail with h1 | h2 | h3
      · rw [hfc] at h1
        simp [exIsOk] at h1
      · exfalso
        rcases h2 with ⟨i, e, hi, hie⟩
        have hmem := mem_mapWithIndex
          (fun i f => uploadToImageKit cfg.imagekitConfigured (env.ikUpload i) f
            (firstOrderId env.gens) i)
          req.files 0 i hi
        have hp1 : (uploadToImageKit cfg.imagekitConfigured (env.ikUpload (0 + i))
            (req.files.get ⟨i, hi⟩) (firstOrderId env.gens) (0 + i)).1
            = .error ("Upload falhou: ".data ++ e.message) := by
          rw [Nat.zero_add, hik, hie]
          rfl
        have hmemf : (uploadToImageKit cfg.imagekitConfigured (env.ikUpload (0 + i))
            (req.files.get ⟨i, hi⟩) (firstOrderId env.gens) (0 + i)).1
            ∈ (uploadPairsOf cfg env req).map Prod.fst := List.mem_map_of_mem Prod.fst hmem
        rcases promiseAll_ok_mem hpa _ hmemf with ⟨a, ha⟩
        rw [hp1] at ha
        cases ha
      · cases hcp : env.createPedido with
        | ok recId =>
          rw [hcp] at h3
          simp [exIsOk] at h3
        | error e =>
          rcases hco : createOrder cfg.airtableConfigured env (popGen env.gens).2 customer.id
              ⟨req.body.tipoProduto, req.body.comentarios⟩ ufs with ⟨cres, rows⟩
          have h5 := createOrder_persistError env (popGen env.gens).2 customer.id
            ⟨req.body.tipoProduto, req.body.comentarios⟩ ufs e hcp
          rw [hat] at hco
          rw [hco] at h5
          cases cres with
          | ok order => simp at h5
          | error m =>
            have hm : m = "Falha ao criar pedido no sistema: ".data ++ e.message := by
              simpa using h5
            have hco2 : createOrder cfg.airtableConfigured env (popGen env.gens).2 customer.id
                ⟨req.body.tipoProduto, req.body.comentarios⟩ ufs = (.error m, rows) := by
              rw [hat]; exact hco
            rw [runPipeline_persistError cfg env req customer cc ufs m rows hfc2 hpa hco2]
            have hne : m.isEmpty = false := by
              rw [hm]; exact isEmpty_append_left _ _ (by decide)
            refine ⟨rfl, rfl, rfl, ?_, m, e.message, ?_, Or.inr (Or.inr hm)⟩
            · show some (jsOrOpt (some (firstOrderId env.gens)) "N/A".data) = _
              rw [jsOrOpt_of_ne _ _ (firstOrderId_ne_empty env.gens)]
              simp [exIsOk]
            · show some (jsOrStr m "Erro interno no servidor. Tente novamente.".data) = some m
              rw [jsOrStr_eq_self m _ hne]

/-- Witness for C9 at a concrete input: the Pedidos create fails upstream. -/
theorem C9_error_response_shape_witness :
    (postUpload cfgOk exEnvPersistFail exReq).resp.status = 500
    ∧ (postUpload cfgOk exEnvPersistFail exReq).resp.success = false
    ∧ (postUpload cfgOk exEnvPersistFail exReq).resp.code
        = some "INTERNAL_SERVER_ERROR".data
    ∧ (postUpload cfgOk exEnvPersistFail exReq).resp.orderId =
        some (if exIsOk (findOrCreateCustomer true exEnvPersistFail
                (customerDataOf exReq.body)).1
              then firstOrderId exEnvPersistFail.gens else "N/A".data)
    ∧ ∃ m rest, (postUpload cfgOk exEnvPersistFail exReq).resp.error = some m
        ∧ (m = "Falha ao processar dados do cliente: ".data ++ rest
           ∨ m = "Upload falhou: ".data ++ rest
           ∨ m = "Falha ao criar pedido no sistema: ".data ++ rest) :=
  C9_error_response_shape cfgOk exEnvPersistFail exReq rfl rfl (by decide) (by decide)
    (by decide) (Or.inr (Or.inr (by decide)))

/-- C10: whenever either external client is unconfigured, POST /api/upload
answers 503 with code SERVICES_NOT_CONFIGURED, makes no provider call, and
the outcome does not depend on the request at all — the guard runs before any
field validation. -/
theorem C10_unconfigured_services_503 (cfg : Config) (env : Env) (req req2 : Request)
    (h : (cfg.imagekitConfigured && cfg.airtableConfigured) = false) :
    (postUpload cfg env req).resp.status = 503
    ∧ (postUpload cfg env req).resp.code = some "SERVICES_NOT_CONFIGURED".data
    ∧ (postUpload cfg env req).tr = emptyTranscript
    ∧ postUpload cfg env req = postUpload cfg env req2 := by
  have hcase : cfg.imagekitConfigured = false ∨ cfg.airtableConfigured = false := by
    cases hi : cfg.imagekitConfigured <;> cases hb : cfg.airtableConfigured <;> simp_all
  have hg : ∀ r : Request, postUpload cfg env r = ⟨resp503, emptyTranscript⟩ := by
    intro r
    rcases hcase with hf | hf <;> simp [postUpload, hf]
  rw [hg req, hg req2]
  exact ⟨rfl, rfl, rfl, rfl⟩

/-- Witness for C10 at a concrete input: the object-store client
unconfigured; two different requests get the identical 503. -/
theorem C10_unconfigured_services_503_witness :
    (postUpload cfgNoIk exEnv exReq).resp.status = 503
    ∧ (postUpload cfgNoIk exEnv exReq).resp.code = some "SERVICES_NOT_CONFIGURED".data
    ∧ (postUpload cfgNoIk exEnv exReq).tr = emptyTranscript
    ∧ postUpload cfgNoIk exEnv exReq = postUpload cfgNoIk exEnv exReqNoNome :=
  C10_unconfigured_services_503 cfgNoIk exEnv exReq exReqNoNome rfl

end MellowSigns
